import Mathlib

/-!
Verification of the client-side fallback forecaster of the
Energy-Consumption-Dashboard repository.

The function under study is `computeClientFallbackForecast` in
`src/components/AnalysisSection.tsx` (lines 123-232).  It is a pure
numerical routine over JavaScript numbers; we embed it shallowly over `ℚ`,
idealising IEEE doubles as exact rationals.  The only non-rational
ingredients of the source are:

* `Math.sqrt(variance || 0)` (the standard deviation),
* `Math.sin(t * Math.PI / 6)` (the sinusoidal seasonal ripple),
* `Math.random()` (one fresh draw per future month),
* `new Date()` / `Date.now()` (current month, month labels, forecast id).

These are passed in explicitly through an `Env` record, so that every
definition stays executable; theorems that depend on their actual values
carry the defining facts (e.g. `stddev * stddev = variance`,
`0 ≤ rand i < 1`) as hypotheses.

`parseFloat(x.toFixed(2))` is embedded as exact decimal rounding to two
places with ties rounded up (`round2`); all values rounded by the source
are non-negative, where `toFixed` agrees with round-half-up.
-/

namespace EnergyDashboard

/-- The `ForecastData` interface of `AnalysisSection.tsx` (lines 28-34). -/
structure ForecastData where
  month : String
  predicted_consumption_kwh : ℚ
  predicted_bill_rwf : ℚ
  tariff_bracket : String
  confidence : String
deriving Repr, DecidableEq, Inhabited

/-- The `TimeSeriesResponse` interface of `AnalysisSection.tsx` (lines 36-50). -/
structure TimeSeriesResponse where
  status : String
  message : String
  historical_data : List ℚ
  forecast_months : ℕ
  predictions : List ForecastData
  total_forecasted_consumption : ℚ
  total_forecasted_bill : ℚ
  average_monthly_consumption : ℚ
  average_monthly_bill : ℚ
  trend : String
  trend_percentage : ℚ
  model_used : String
  forecast_id : String
deriving Repr, DecidableEq

/-- Environment of non-rational / non-deterministic inputs read by the
source: the per-future-month `Math.random()` draw, the value of
`Math.sqrt(variance || 0)`, the value of `Math.sin(t * Math.PI / 6)` for a
time index `t`, `(new Date()).getMonth()`, the locale month label produced
for future month `i`, and the `Date.now()`-derived id suffix. -/
structure Env where
  rand : ℕ → ℚ
  stddev : ℚ
  sinVal : ℕ → ℚ
  currentMonth : ℕ
  monthLabel : ℕ → String
  forecastId : String

/-- `parseFloat(x.toFixed(2))`: rounding to two decimal places. -/
def round2 (q : ℚ) : ℚ := ((round (q * 100) : ℤ) : ℚ) / 100

/-- Line 128: `const mean = n ? historicalData.reduce((a, b) => a + b, 0) / n : 0`. -/
def mean (hd : List ℚ) : ℚ := if hd.length = 0 then 0 else hd.sum / (hd.length : ℚ)

/-- Line 129: population variance
`n ? historicalData.reduce((a, b) => a + (b - mean) * (b - mean), 0) / n : 0`. -/
def variance (hd : List ℚ) : ℚ :=
  if hd.length = 0 then 0
  else (hd.map (fun b => (b - mean hd) * (b - mean hd))).sum / (hd.length : ℚ)

/-- Line 139: `const xMean = (n - 1) / 2`. -/
def xMean (n : ℕ) : ℚ := ((n : ℚ) - 1) / 2

/-- Line 140: `const cov = xs.reduce((acc, xi, i) => acc + (xi - xMean) * (historicalData[i] - mean), 0)`. -/
def covXY (hd : List ℚ) : ℚ :=
  ((List.range hd.length).map
    (fun (i : ℕ) => ((i : ℚ) - xMean hd.length) * (hd.getD i 0 - mean hd))).sum

/-- Line 141: `const varX = xs.reduce((acc, xi) => acc + (xi - xMean) * (xi - xMean), 0) || 1`
(a zero sum of squares is replaced by 1, the JS `||` on numbers). -/
def varX (hd : List ℚ) : ℚ :=
  let v := ((List.range hd.length).map
    (fun i => ((i : ℚ) - xMean hd.length) * ((i : ℚ) - xMean hd.length))).sum
  if v = 0 then 1 else v

/-- Line 142: `const slope = cov / varX`. -/
def slope (hd : List ℚ) : ℚ := covXY hd / varX hd

/-- Line 143: `const intercept = mean - slope * xMean`. -/
def intercept (hd : List ℚ) : ℚ := mean hd - slope hd * xMean hd.length

/-- Line 152: `(new Date().getMonth() - (n - 1 - i) + 12) % 12` under JS
semantics.  JS `%` truncates toward zero, so a negative left operand gives a
non-positive remainder; writing into `monthSeason` at a strictly negative
index creates a stray property that the later per-month normalisation
(lines 156, 167) never reads, so such samples are effectively dropped.
A remainder of `-0` is the array index `0`, hence the divisibility escape. -/
def jsMonthIndex (cm n i : ℕ) : Option ℕ :=
  let x : ℤ := (cm : ℤ) - ((n : ℤ) - 1 - (i : ℤ)) + 12
  if 0 ≤ x ∨ x % 12 = 0 then some (x % 12).toNat else none

/-- Lines 147-157: the normalised `monthSeason[m]` entry — the average of the
historical samples mapped to calendar month `m`, or `0` when none are. -/
def monthSeasonAvg (hd : List ℚ) (cm : ℕ) (m : ℕ) : ℚ :=
  let idxs := (List.range hd.length).filter (fun i => jsMonthIndex cm hd.length i = some m)
  if idxs.length = 0 then 0
  else (idxs.map (fun i => hd.getD i 0)).sum / (idxs.length : ℚ)

/-- Lines 163-172: the multiplicative seasonal factor for future month `i`.
With at least 12 samples it is the ratio of the target month average to the
overall mean (`|| mean` and `|| 1` are the JS zero-escapes of lines 167 and
169); otherwise the 5%-amplitude sinusoid of line 171, where
`env.sinVal t` stands for `Math.sin(t * Math.PI / 6)`. -/
def seasonalFactor (hd : List ℚ) (env : Env) (i : ℕ) : ℚ :=
  if 12 ≤ hd.length then
    let futureMonth := (env.currentMonth + i + 1) % 12
    let ms := monthSeasonAvg hd env.currentMonth futureMonth
    let monthAvg := if ms = 0 then mean hd else ms
    let sf := monthAvg / mean hd
    if sf = 0 then 1 else sf
  else
    1 + (5 / 100) * env.sinVal (hd.length + i)

/-- Line 175: `const noise = (stddev || Math.max(1, mean * 0.1)) * (Math.random() * 0.1 - 0.05)`. -/
def noiseAt (hd : List ℚ) (env : Env) (i : ℕ) : ℚ :=
  (if env.stddev = 0 then max 1 (mean hd * (1 / 10)) else env.stddev) *
    (env.rand i * (1 / 10) - 5 / 100)

/-- Line 177: `let val = Math.max(0, (trendVal * seasonalFactor) + noise)`
with `trendVal = intercept + slope * t`, `t = n + i` (lines 160-161). -/
def rawVal0 (hd : List ℚ) (env : Env) (i : ℕ) : ℚ :=
  max 0 ((intercept hd + slope hd * ((hd.length + i : ℕ) : ℚ)) * seasonalFactor hd env i
    + noiseAt hd env i)

/-- Lines 180-182: `if (!isFinite(val) || val <= 0) val = mean * (1 + 0.02 * (i + 1))`.
Over `ℚ` every value is finite, so only the sign test remains. -/
def rawVal1 (hd : List ℚ) (env : Env) (i : ℕ) : ℚ :=
  if rawVal0 hd env i ≤ 0 then mean hd * (1 + (2 / 100) * ((i : ℚ) + 1)) else rawVal0 hd env i

/-- Line 185: `val = Math.max(val, Math.max(0.1, mean * 0.05))`. -/
def rawVal2 (hd : List ℚ) (env : Env) (i : ℕ) : ℚ :=
  max (rawVal1 hd env i) (max (1 / 10) (mean hd * (5 / 100)))

/-- Lines 132-188: the `preds` array.  Empty or zero-mean history yields the
flat baseline 5 (lines 133-135); otherwise one regression-seasonality-noise
value per future month, rounded to two decimals (line 186). -/
def fallbackPreds (hd : List ℚ) (monthsAhead : ℕ) (env : Env) : List ℚ :=
  if hd.length = 0 ∨ mean hd = 0 then
    List.replicate monthsAhead 5
  else
    (List.range monthsAhead).map (fun i => round2 (rawVal2 hd env i))

/-- Lines 191-194: the fixed three-tier tariff. -/
def tariffBill (p : ℚ) : ℚ :=
  if p ≤ 20 then p * 89
  else if p ≤ 50 then 20 * 89 + (p - 20) * 310
  else 20 * 89 + 30 * 310 + (p - 50) * 369

/-- Line 195: per-point bill, tariff applied then rounded to two decimals. -/
def billOf (p : ℚ) : ℚ := round2 (tariffBill p)

/-- Line 208: the tariff bracket label. -/
def tariffBracket (p : ℚ) : String :=
  if p ≤ 20 then "0-20 kWh" else if p ≤ 50 then "21-50 kWh" else "50+ kWh"

/-- Line 209: the confidence label, a function of the input length only. -/
def confidenceLabel (n : ℕ) : String :=
  if 12 ≤ n then "medium" else if 6 ≤ n then "low-medium" else "low"

def emptyStr : String := ""

/-- Lines 204-210: the `predictions` array.  JS `preds.map((p, i) => ...)`
is rendered as a map over the index range; `monthNames[i] || fallback`
covers both a missing and an empty label (the JS falsy test). -/
def buildPredictions (n : ℕ) (preds billPreds : List ℚ) (monthNames : List String) :
    List ForecastData :=
  (List.range preds.length).map (fun i =>
    { month := if monthNames.getD i emptyStr = emptyStr
        then "Month " ++ toString (i + 1) else monthNames.getD i emptyStr
      predicted_consumption_kwh := preds.getD i 0
      predicted_bill_rwf := billPreds.getD i 0
      tariff_bracket := tariffBracket (preds.getD i 0)
      confidence := confidenceLabel n })

/-- Line 213: `historicalData.slice(-3).reduce((a,b) => a+b, 0) / Math.min(3, n)`
guarded by `n ? ... : 0`. -/
def histAvg3 (hd : List ℚ) : ℚ :=
  if hd.length = 0 then 0
  else (hd.drop (hd.length - 3)).sum / ((min 3 hd.length : ℕ) : ℚ)

/-- Lines 123-232: `computeClientFallbackForecast(historicalData, monthsAhead)`.
Line 212's `forecastAvg` is the same `length ? sum / length : 0` shape as the
historical mean, hence rendered with `mean`. -/
def computeClientFallbackForecast (historicalData : List ℚ) (monthsAhead : ℕ)
    (env : Env) : TimeSeriesResponse :=
  let preds := fallbackPreds historicalData monthsAhead env
  let billPreds := preds.map billOf
  { status := "success"
    message := "Client-side fallback forecast used (regression + seasonality)"
    historical_data := historicalData.map round2
    forecast_months := monthsAhead
    predictions := buildPredictions historicalData.length preds billPreds
      ((List.range monthsAhead).map env.monthLabel)
    total_forecasted_consumption := round2 preds.sum
    total_forecasted_bill := round2 billPreds.sum
    average_monthly_consumption := round2 (mean preds)
    average_monthly_bill := round2 (billPreds.sum /
      (if billPreds.length = 0 then 1 else (billPreds.length : ℚ)))
    trend := if histAvg3 historicalData < mean preds then "increasing" else "decreasing"
    trend_percentage := if histAvg3 historicalData = 0 then 0
      else round2 ((mean preds - histAvg3 historicalData) / histAvg3 historicalData * 100)
    model_used := "client_fallback"
    forecast_id := "local-" ++ env.forecastId }

/-- Projection: predicted consumption values of a response, in order. -/
def predConsList (r : TimeSeriesResponse) : List ℚ :=
  r.predictions.map (fun fd => fd.predicted_consumption_kwh)

/-- Projection: predicted bill values of a response, in order. -/
def predBillList (r : TimeSeriesResponse) : List ℚ :=
  r.predictions.map (fun fd => fd.predicted_bill_rwf)

/-- A concrete environment used to instantiate hypotheses-bearing theorems:
zero random draws, zero standard deviation, zero sine values, January,
constant month labels, a fixed id suffix. -/
def envA : Env :=
  { rand := fun _ => 0
    stddev := 0
    sinVal := fun _ => 0
    currentMonth := 0
    monthLabel := fun _ => "m"
    forecastId := "111111" }

/-- `envA` with a different clock-derived id suffix and everything else equal. -/
def envB : Env :=
  { rand := fun _ => 0
    stddev := 0
    sinVal := fun _ => 0
    currentMonth := 0
    monthLabel := fun _ => "m"
    forecastId := "222222" }

/-- `envA` with random draws that differ from `envA` only from index 2 on. -/
def envC : Env :=
  { rand := fun i => if i < 2 then 0 else 1 / 2
    stddev := 0
    sinVal := fun _ => 0
    currentMonth := 0
    monthLabel := fun _ => "m"
    forecastId := "111111" }

/-! ## Helper lemmas -/

theorem round2_zero : round2 0 = 0 := by
  simp [round2]

theorem abs_round2_sub (q : ℚ) : |round2 q - q| ≤ 1 / 200 := by
  have h : |q * 100 - ((round (q * 100) : ℤ) : ℚ)| ≤ 1 / 2 := abs_sub_round (q * 100)
  have h2 : round2 q - q = -(q * 100 - ((round (q * 100) : ℤ) : ℚ)) / 100 := by
    unfold round2; ring
  rw [h2, abs_div, abs_neg]
  rw [abs_of_nonneg (by norm_num : (0:ℚ) ≤ 100)]
  linarith

theorem le_round2_of_le {q : ℚ} (h : 1 / 10 ≤ q) : 1 / 10 ≤ round2 q := by
  have h1 : (10 : ℤ) ≤ round (q * 100) := by
    rw [round_eq]
    exact Int.le_floor.mpr (by push_cast; linarith)
  have h2 : (10 : ℚ) ≤ ((round (q * 100) : ℤ) : ℚ) := by exact_mod_cast h1
  unfold round2
  linarith

theorem getD_range_map {α : Type} (f : ℕ → α) {n i : ℕ} (d : α) (h : i < n) :
    ((List.range n).map f).getD i d = f i := by
  have hlen : i < ((List.range n).map f).length := by simpa using h
  rw [List.getD_eq_getElem?_getD, List.getElem?_eq_getElem hlen]
  simp

theorem map_getD_range {α : Type} (l : List α) (d : α) :
    (List.range l.length).map (fun i => l.getD i d) = l := by
  apply List.ext_getElem
  · simp
  · intro i h1 h2
    simp [List.getD_eq_getElem?_getD, List.getElem?_eq_getElem h2]

theorem getD_map_of_lt {α β : Type} (f : α → β) (l : List α) {i : ℕ} (d : β) (d2 : α)
    (h : i < l.length) :
    (l.map f).getD i d = f (l.getD i d2) := by
  have hlen : i < (l.map f).length := by simpa using h
  rw [List.getD_eq_getElem?_getD, List.getElem?_eq_getElem hlen]
  simp [List.getD_eq_getElem?_getD, List.getElem?_eq_getElem h]

theorem fallbackPreds_length (hd : List ℚ) (m : ℕ) (env : Env) :
    (fallbackPreds hd m env).length = m := by
  unfold fallbackPreds
  split <;> simp

theorem fallbackPreds_getD_baseline (hd : List ℚ) (m : ℕ) (env : Env) {i : ℕ}
    (hdeg : hd.length = 0 ∨ mean hd = 0) (h : i < m) :
    (fallbackPreds hd m env).getD i 0 = 5 := by
  unfold fallbackPreds
  rw [if_pos hdeg]
  have hlen : i < (List.replicate m (5:ℚ)).length := by simpa using h
  rw [List.getD_eq_getElem?_getD, List.getElem?_eq_getElem hlen]
  simp

theorem fallbackPreds_getD_reg (hd : List ℚ) (m : ℕ) (env : Env) {i : ℕ}
    (hbr : ¬ (hd.length = 0 ∨ mean hd = 0)) (h : i < m) :
    (fallbackPreds hd m env).getD i 0 = round2 (rawVal2 hd env i) := by
  unfold fallbackPreds
  rw [if_neg hbr]
  exact getD_range_map _ 0 h

theorem buildPredictions_length (n : ℕ) (preds bills : List ℚ) (names : List String) :
    (buildPredictions n preds bills names).length = preds.length := by
  simp [buildPredictions]

theorem buildPredictions_getD (n : ℕ) (preds bills : List ℚ) (names : List String) {i : ℕ}
    (h : i < preds.length) :
    (buildPredictions n preds bills names).getD i default =
      { month := if names.getD i emptyStr = emptyStr
          then "Month " ++ toString (i + 1) else names.getD i emptyStr
        predicted_consumption_kwh := preds.getD i 0
        predicted_bill_rwf := bills.getD i 0
        tariff_bracket := tariffBracket (preds.getD i 0)
        confidence := confidenceLabel n } := by
  unfold buildPredictions
  exact getD_range_map _ default h

theorem compute_predictions_eq (hd : List ℚ) (m : ℕ) (env : Env) :
    (computeClientFallbackForecast hd m env).predictions =
      buildPredictions hd.length (fallbackPreds hd m env)
        ((fallbackPreds hd m env).map billOf) ((List.range m).map env.monthLabel) := rfl

theorem compute_predictions_length (hd : List ℚ) (m : ℕ) (env : Env) :
    (computeClientFallbackForecast hd m env).predictions.length = m := by
  rw [compute_predictions_eq, buildPredictions_length, fallbackPreds_length]

theorem compute_cons_getD (hd : List ℚ) (m : ℕ) (env : Env) {i : ℕ} (hi : i < m) :
    ((computeClientFallbackForecast hd m env).predictions.getD i default).predicted_consumption_kwh
      = (fallbackPreds hd m env).getD i 0 := by
  rw [compute_predictions_eq,
    buildPredictions_getD _ _ _ _ (by rw [fallbackPreds_length]; exact hi)]

theorem compute_bill_getD (hd : List ℚ) (m : ℕ) (env : Env) {i : ℕ} (hi : i < m) :
    ((computeClientFallbackForecast hd m env).predictions.getD i default).predicted_bill_rwf
      = billOf ((fallbackPreds hd m env).getD i 0) := by
  rw [compute_predictions_eq,
    buildPredictions_getD _ _ _ _ (by rw [fallbackPreds_length]; exact hi)]
  exact getD_map_of_lt billOf _ 0 0 (by rw [fallbackPreds_length]; exact hi)

theorem compute_bracket_getD (hd : List ℚ) (m : ℕ) (env : Env) {i : ℕ} (hi : i < m) :
    ((computeClientFallbackForecast hd m env).predictions.getD i default).tariff_bracket
      = tariffBracket ((fallbackPreds hd m env).getD i 0) := by
  rw [compute_predictions_eq,
    buildPredictions_getD _ _ _ _ (by rw [fallbackPreds_length]; exact hi)]

theorem compute_conf_getD (hd : List ℚ) (m : ℕ) (env : Env) {i : ℕ} (hi : i < m) :
    ((computeClientFallbackForecast hd m env).predictions.getD i default).confidence
      = confidenceLabel hd.length := by
  rw [compute_predictions_eq,
    buildPredictions_getD _ _ _ _ (by rw [fallbackPreds_length]; exact hi)]

theorem confidenceLabel_iff (n : ℕ) :
    (confidenceLabel n = "medium" ↔ 12 ≤ n) ∧
    (confidenceLabel n = "low-medium" ↔ 6 ≤ n ∧ n < 12) ∧
    (confidenceLabel n = "low" ↔ n < 6) := by
  unfold confidenceLabel
  by_cases h12 : 12 ≤ n
  · rw [if_pos h12]
    refine ⟨⟨fun _ => h12, fun _ => rfl⟩,
      ⟨fun hc => absurd hc (by decide), fun hc => absurd h12 (by omega)⟩,
      ⟨fun hc => absurd hc (by decide), fun hc => absurd h12 (by omega)⟩⟩
  · rw [if_neg h12]
    by_cases h6 : 6 ≤ n
    · rw [if_pos h6]
      refine ⟨⟨fun hc => absurd hc (by decide), fun hc => absurd hc h12⟩,
        ⟨fun _ => ⟨h6, by omega⟩, fun _ => rfl⟩,
        ⟨fun hc => absurd hc (by decide), fun hc => absurd h6 (by omega)⟩⟩
    · rw [if_neg h6]
      refine ⟨⟨fun hc => absurd hc (by decide), fun hc => absurd hc h12⟩,
        ⟨fun hc => absurd hc (by decide), fun hc => absurd hc.1 h6⟩,
        ⟨fun _ => by omega, fun _ => rfl⟩⟩

/-! ## Claims -/

/-- C1: for every historical series and every horizon, the result of
`computeClientFallbackForecast` has exactly `monthsAhead` prediction points
and its `forecast_months` field equals `monthsAhead`, in the degenerate
baseline branch as well as in the regression branch (the statement is
unconditional in the input, so it covers both). -/
theorem claim_C1 (hd : List ℚ) (m : ℕ) (env : Env) :
    (computeClientFallbackForecast hd m env).predictions.length = m ∧
      (computeClientFallbackForecast hd m env).forecast_months = m :=
  ⟨compute_predictions_length hd m env, rfl⟩

/-- C2: every emitted prediction point carries a bill equal to the fixed
three-tier tariff of its own predicted consumption, rounded to two
decimals, and a tariff-bracket label computed by the same thresholds from
the same consumption value. -/
theorem claim_C2 (hd : List ℚ) (m : ℕ) (env : Env) (i : ℕ) (hi : i < m) :
    ((computeClientFallbackForecast hd m env).predictions.getD i default).predicted_bill_rwf
      = round2 (tariffBill
        (((computeClientFallbackForecast hd m env).predictions.getD i default).predicted_consumption_kwh)) ∧
    ((computeClientFallbackForecast hd m env).predictions.getD i default).tariff_bracket
      = tariffBracket
        (((computeClientFallbackForecast hd m env).predictions.getD i default).predicted_consumption_kwh) := by
  rw [compute_cons_getD hd m env hi, compute_bill_getD hd m env hi,
    compute_bracket_getD hd m env hi]
  exact ⟨rfl, rfl⟩

theorem claim_C2_witness :
    0 < 2 ∧
    (((computeClientFallbackForecast [10, 20, 30] 2 envA).predictions.getD 0 default).predicted_bill_rwf
      = round2 (tariffBill
        (((computeClientFallbackForecast [10, 20, 30] 2 envA).predictions.getD 0 default).predicted_consumption_kwh)) ∧
    ((computeClientFallbackForecast [10, 20, 30] 2 envA).predictions.getD 0 default).tariff_bracket
      = tariffBracket
        (((computeClientFallbackForecast [10, 20, 30] 2 envA).predictions.getD 0 default).predicted_consumption_kwh)) :=
  ⟨by decide, claim_C2 [10, 20, 30] 2 envA 0 (by decide)⟩

/-- C3: when the historical series is empty or has mean zero, the result
still has exactly `monthsAhead` points and every point carries the baseline
consumption 5 kWh and the corresponding bill 5 × 89 = 445 RWF. -/
theorem claim_C3 (hd : List ℚ) (m : ℕ) (env : Env) (i : ℕ)
    (hdeg : hd = [] ∨ mean hd = 0) (hi : i < m) :
    (computeClientFallbackForecast hd m env).predictions.length = m ∧
    ((computeClientFallbackForecast hd m env).predictions.getD i default).predicted_consumption_kwh = 5 ∧
    ((computeClientFallbackForecast hd m env).predictions.getD i default).predicted_bill_rwf = 5 * 89 := by
  have hdeg2 : hd.length = 0 ∨ mean hd = 0 := by
    rcases hdeg with h | h
    · exact Or.inl (by simp [h])
    · exact Or.inr h
  refine ⟨compute_predictions_length hd m env, ?_, ?_⟩
  · rw [compute_cons_getD hd m env hi, fallbackPreds_getD_baseline hd m env hdeg2 hi]
  · rw [compute_bill_getD hd m env hi, fallbackPreds_getD_baseline hd m env hdeg2 hi]
    norm_num [billOf, tariffBill, round2, round_eq]

theorem claim_C3_witness :
    (computeClientFallbackForecast [] 3 envA).predictions.length = 3 ∧
    ((computeClientFallbackForecast [] 3 envA).predictions.getD 0 default).predicted_consumption_kwh = 5 ∧
    ((computeClientFallbackForecast [] 3 envA).predictions.getD 0 default).predicted_bill_rwf = 5 * 89 :=
  claim_C3 [] 3 envA 0 (Or.inl rfl) (by decide)

/-- C4: for a non-empty, non-negative series with positive mean, every
emitted consumption value is strictly positive; the pre-rounding value is
at least `max 0.1 (0.05 * mean)` (the line-185 floor), and whenever the
clamped regression value is non-positive it is replaced by the mean-based
extrapolation `mean * (1 + 0.02 * (i + 1))`. -/
theorem claim_C4 (hd : List ℚ) (m : ℕ) (env : Env) (i : ℕ)
    (hne : hd ≠ []) (hnn : ∀ x ∈ hd, 0 ≤ x) (hmean : 0 < mean hd)
    (hm : 1 ≤ m) (hi : i < m) :
    max (1 / 10) (mean hd * (5 / 100)) ≤ rawVal2 hd env i ∧
    0 < ((computeClientFallbackForecast hd m env).predictions.getD i default).predicted_consumption_kwh ∧
    (rawVal0 hd env i ≤ 0 →
      rawVal1 hd env i = mean hd * (1 + (2 / 100) * ((i : ℚ) + 1))) := by
  have hbranch : ¬ (hd.length = 0 ∨ mean hd = 0) := by
    push_neg
    refine ⟨by simpa using hne, ne_of_gt hmean⟩
  refine ⟨le_max_right _ _, ?_, ?_⟩
  · rw [compute_cons_getD hd m env hi, fallbackPreds_getD_reg hd m env hbranch hi]
    have h1 : (1:ℚ)/10 ≤ rawVal2 hd env i :=
      le_trans (le_max_left _ _) (le_max_right _ _)
    have h2 := le_round2_of_le h1
    linarith
  · intro h0
    unfold rawVal1
    rw [if_pos h0]

theorem claim_C4_witness :
    max (1 / 10) (mean [10, 20, 30] * (5 / 100)) ≤ rawVal2 [10, 20, 30] envA 0 ∧
    0 < ((computeClientFallbackForecast [10, 20, 30] 2 envA).predictions.getD 0 default).predicted_consumption_kwh ∧
    (rawVal0 [10, 20, 30] envA 0 ≤ 0 →
      rawVal1 [10, 20, 30] envA 0 = mean [10, 20, 30] * (1 + (2 / 100) * ((0 : ℚ) + 1))) :=
  claim_C4 [10, 20, 30] 2 envA 0 (List.cons_ne_nil 10 [20, 30])
    (by norm_num [List.forall_mem_cons])
    (by norm_num [mean]) (by decide) (by decide)

/-- C5: the confidence label of every emitted point is "medium" exactly when
the input series has at least 12 entries, "low-medium" exactly when it has
between 6 and 11, and "low" exactly when it has fewer than 6; it is a
function of the input length alone (the statement holds for every series,
every horizon and every environment). -/
theorem claim_C5 (hd : List ℚ) (m : ℕ) (env : Env) (i : ℕ) (hi : i < m) :
    (((computeClientFallbackForecast hd m env).predictions.getD i default).confidence = "medium"
      ↔ 12 ≤ hd.length) ∧
    (((computeClientFallbackForecast hd m env).predictions.getD i default).confidence = "low-medium"
      ↔ 6 ≤ hd.length ∧ hd.length < 12) ∧
    (((computeClientFallbackForecast hd m env).predictions.getD i default).confidence = "low"
      ↔ hd.length < 6) := by
  rw [compute_conf_getD hd m env hi]
  exact confidenceLabel_iff hd.length

theorem claim_C5_witness :
    (((computeClientFallbackForecast [10, 20, 30] 1 envA).predictions.getD 0 default).confidence = "medium"
      ↔ 12 ≤ ([10, 20, 30] : List ℚ).length) ∧
    (((computeClientFallbackForecast [10, 20, 30] 1 envA).predictions.getD 0 default).confidence = "low-medium"
      ↔ 6 ≤ ([10, 20, 30] : List ℚ).length ∧ ([10, 20, 30] : List ℚ).length < 12) ∧
    (((computeClientFallbackForecast [10, 20, 30] 1 envA).predictions.getD 0 default).confidence = "low"
      ↔ ([10, 20, 30] : List ℚ).length < 6) :=
  claim_C5 [10, 20, 30] 1 envA 0 (by decide)

end EnergyDashboard

namespace EnergyDashboard

theorem predConsList_eq (hd : List ℚ) (m : ℕ) (env : Env) :
    predConsList (computeClientFallbackForecast hd m env) = fallbackPreds hd m env := by
  unfold predConsList
  rw [compute_predictions_eq]
  unfold buildPredictions
  rw [List.map_map]
  exact map_getD_range (fallbackPreds hd m env) 0

theorem predBillList_eq (hd : List ℚ) (m : ℕ) (env : Env) :
    predBillList (computeClientFallbackForecast hd m env)
      = (fallbackPreds hd m env).map billOf := by
  unfold predBillList
  rw [compute_predictions_eq]
  unfold buildPredictions
  rw [List.map_map]
  have h : (fallbackPreds hd m env).length
      = ((fallbackPreds hd m env).map billOf).length := (List.length_map _ _).symm
  rw [h]
  exact map_getD_range ((fallbackPreds hd m env).map billOf) 0

theorem compute_total_cons (hd : List ℚ) (m : ℕ) (env : Env) :
    (computeClientFallbackForecast hd m env).total_forecasted_consumption
      = round2 (fallbackPreds hd m env).sum := rfl

theorem compute_total_bill (hd : List ℚ) (m : ℕ) (env : Env) :
    (computeClientFallbackForecast hd m env).total_forecasted_bill
      = round2 ((fallbackPreds hd m env).map billOf).sum := rfl

theorem compute_avg_cons (hd : List ℚ) (m : ℕ) (env : Env) :
    (computeClientFallbackForecast hd m env).average_monthly_consumption
      = round2 (mean (fallbackPreds hd m env)) := rfl

theorem compute_avg_bill (hd : List ℚ) (m : ℕ) (env : Env) :
    (computeClientFallbackForecast hd m env).average_monthly_bill
      = round2 (((fallbackPreds hd m env).map billOf).sum /
        (if ((fallbackPreds hd m env).map billOf).length = 0 then 1
         else (((fallbackPreds hd m env).map billOf).length : ℚ))) := rfl

theorem abs_round2_sub_le_cent (l : List ℚ) :
    |round2 l.sum - l.sum| ≤ (1 / 100) * (l.length : ℚ) := by
  rcases Nat.eq_zero_or_pos l.length with h | h
  · rw [List.length_eq_zero.mp h]
    simp [round2_zero]
  · have h1 := abs_round2_sub l.sum
    have h2 : (1 : ℚ) ≤ (l.length : ℚ) := by exact_mod_cast h
    linarith

theorem mean_eq_sum_div (l : List ℚ) : mean l = l.sum / (l.length : ℚ) := by
  unfold mean
  split
  · rename_i h
    rw [h]
    simp
  · rfl

theorem div_count_eq (l : List ℚ) :
    l.sum / (if l.length = 0 then 1 else (l.length : ℚ)) = l.sum / (l.length : ℚ) := by
  split
  · rename_i h
    rw [List.length_eq_zero.mp h]
    simp
  · rfl

/-- C6: the aggregate totals of a forecast result agree with the sum of the
emitted per-point values to within the single final rounding (at most 0.01
per point times the number of points), and the monthly averages are exactly
the per-point sums divided by the number of emitted points, rounded to two
decimals — they are derived from the emitted points. -/
theorem claim_C6 (hd : List ℚ) (m : ℕ) (env : Env) :
    |(computeClientFallbackForecast hd m env).total_forecasted_consumption
        - (predConsList (computeClientFallbackForecast hd m env)).sum|
      ≤ (1 / 100) * ((computeClientFallbackForecast hd m env).predictions.length : ℚ) ∧
    |(computeClientFallbackForecast hd m env).total_forecasted_bill
        - (predBillList (computeClientFallbackForecast hd m env)).sum|
      ≤ (1 / 100) * ((computeClientFallbackForecast hd m env).predictions.length : ℚ) ∧
    (computeClientFallbackForecast hd m env).average_monthly_consumption
      = round2 ((predConsList (computeClientFallbackForecast hd m env)).sum
        / ((computeClientFallbackForecast hd m env).predictions.length : ℚ)) ∧
    (computeClientFallbackForecast hd m env).average_monthly_bill
      = round2 ((predBillList (computeClientFallbackForecast hd m env)).sum
        / ((computeClientFallbackForecast hd m env).predictions.length : ℚ)) := by
  rw [predConsList_eq, predBillList_eq, compute_predictions_length,
    compute_total_cons, compute_total_bill, compute_avg_cons, compute_avg_bill]
  refine ⟨?_, ?_, ?_, ?_⟩
  · have h := abs_round2_sub_le_cent (fallbackPreds hd m env)
    rw [fallbackPreds_length] at h
    exact h
  · have h := abs_round2_sub_le_cent ((fallbackPreds hd m env).map billOf)
    rw [List.length_map, fallbackPreds_length] at h
    exact h
  · rw [mean_eq_sum_div, fallbackPreds_length]
  · rw [div_count_eq, List.length_map, fallbackPreds_length]

theorem histAvg3_eq_mean_drop (hd : List ℚ) :
    histAvg3 hd = mean (hd.drop (hd.length - 3)) := by
  unfold histAvg3
  split
  · rename_i h
    rw [List.length_eq_zero.mp h]
    simp [mean]
  · rename_i h
    rw [mean_eq_sum_div, List.length_drop]
    congr 1
    norm_cast
    omega

theorem compute_trend_eq (hd : List ℚ) (m : ℕ) (env : Env) :
    (computeClientFallbackForecast hd m env).trend
      = (if histAvg3 hd < mean (fallbackPreds hd m env)
         then "increasing" else "decreasing") := rfl

theorem compute_trendpct_eq (hd : List ℚ) (m : ℕ) (env : Env) :
    (computeClientFallbackForecast hd m env).trend_percentage
      = (if histAvg3 hd = 0 then 0
         else round2 ((mean (fallbackPreds hd m env) - histAvg3 hd) / histAvg3 hd * 100)) := rfl

/-- C7: the trend field is "increasing" exactly when the mean of the emitted
forecast values strictly exceeds the mean of the last three historical
points (the mean of the whole series when it is shorter than three, zero
when it is empty), and "decreasing" otherwise; the trend percentage is the
relative difference times 100 rounded to two decimals, and zero whenever
the historical baseline mean is zero. -/
theorem claim_C7 (hd : List ℚ) (m : ℕ) (env : Env) :
    ((computeClientFallbackForecast hd m env).trend = "increasing"
      ↔ mean (hd.drop (hd.length - 3))
        < mean (predConsList (computeClientFallbackForecast hd m env))) ∧
    ((computeClientFallbackForecast hd m env).trend = "decreasing"
      ↔ ¬ mean (hd.drop (hd.length - 3))
        < mean (predConsList (computeClientFallbackForecast hd m env))) ∧
    (computeClientFallbackForecast hd m env).trend_percentage
      = (if mean (hd.drop (hd.length - 3)) = 0 then 0
         else round2 ((mean (predConsList (computeClientFallbackForecast hd m env))
            - mean (hd.drop (hd.length - 3))) / mean (hd.drop (hd.length - 3)) * 100)) := by
  rw [predConsList_eq, compute_trend_eq, compute_trendpct_eq, ← histAvg3_eq_mean_drop]
  by_cases h : histAvg3 hd < mean (fallbackPreds hd m env)
  · rw [if_pos h]
    exact ⟨⟨fun _ => h, fun _ => rfl⟩,
      ⟨fun hc => absurd hc (by decide), fun hc => absurd h hc⟩, rfl⟩
  · rw [if_neg h]
    exact ⟨⟨fun hc => absurd hc (by decide), fun hc => absurd hc h⟩,
      ⟨fun _ => h, fun _ => rfl⟩, rfl⟩

theorem fallbackPreds_congr (hd : List ℚ) (m : ℕ) (env1 env2 : Env)
    (hstd : env1.stddev = env2.stddev)
    (hrand : ∀ i, i < m → env1.rand i = env2.rand i)
    (hsin : ∀ i, i < m → env1.sinVal (hd.length + i) = env2.sinVal (hd.length + i))
    (hcm : env1.currentMonth = env2.currentMonth) :
    fallbackPreds hd m env1 = fallbackPreds hd m env2 := by
  unfold fallbackPreds
  split
  · rfl
  · apply List.map_congr_left
    intro i hi
    rw [List.mem_range] at hi
    unfold rawVal2 rawVal1 rawVal0 seasonalFactor noiseAt
    rw [hstd, hcm, hrand i hi, hsin i hi]

/-- C8 counterexample: two invocations with identical historical data,
identical horizon and identical random draws (indeed identical stddev, sine
values, current month and month labels) still produce different results,
because the source also reads the clock: `forecast_id` is derived from
`Date.now()` (line 230).  The claim "identical in every field, forecast_id
included — the function reads nothing else beyond its arguments and the
noise source" is therefore false. -/
theorem claim_C8_counterexample :
    envA.rand = envB.rand ∧ envA.stddev = envB.stddev ∧ envA.sinVal = envB.sinVal ∧
    envA.currentMonth = envB.currentMonth ∧ envA.monthLabel = envB.monthLabel ∧
    computeClientFallbackForecast [10, 20, 30] 2 envA
      ≠ computeClientFallbackForecast [10, 20, 30] 2 envB := by
  refine ⟨rfl, rfl, rfl, rfl, rfl, fun h => ?_⟩
  exact absurd (congrArg TimeSeriesResponse.forecast_id h) (by decide)

/-- C8 (amended): `computeClientFallbackForecast` is a pure function of its
arguments plus the bounded random draws AND the clock readings: two
invocations agreeing on the historical data, the horizon, the random draws
(and derived stddev / sine values) actually read, the current month, the
derived month labels and the timestamp-derived id suffix return identical
results in every field. -/
theorem claim_C8 (hd : List ℚ) (m : ℕ) (env1 env2 : Env)
    (hstd : env1.stddev = env2.stddev)
    (hrand : ∀ i, i < m → env1.rand i = env2.rand i)
    (hsin : ∀ i, i < m → env1.sinVal (hd.length + i) = env2.sinVal (hd.length + i))
    (hcm : env1.currentMonth = env2.currentMonth)
    (hlbl : ∀ i, i < m → env1.monthLabel i = env2.monthLabel i)
    (hid : env1.forecastId = env2.forecastId) :
    computeClientFallbackForecast hd m env1 = computeClientFallbackForecast hd m env2 := by
  have hpreds := fallbackPreds_congr hd m env1 env2 hstd hrand hsin hcm
  have hnames : (List.range m).map env1.monthLabel = (List.range m).map env2.monthLabel := by
    apply List.map_congr_left
    intro i hi
    exact hlbl i (List.mem_range.mp hi)
  unfold computeClientFallbackForecast
  rw [hpreds, hnames, hid]

theorem claim_C8_witness :
    computeClientFallbackForecast [10, 20, 30] 2 envA
      = computeClientFallbackForecast [10, 20, 30] 2 envC :=
  claim_C8 [10, 20, 30] 2 envA envC rfl
    (fun i hi => by
      simp only [envA, envC]
      rw [if_pos hi])
    (fun i _ => rfl) rfl (fun i _ => rfl) rfl

/-- C9 counterexample: for the series `[1, 1, 1]` the population standard
deviation is zero, and the claimed noise-magnitude base `0.1 × mean = 0.1`
gives the bound `0.05 × 0.1 × 1 = 0.005`; but the code uses
`Math.max(1, mean * 0.1) = 1` as the base, so the random draw 0 produces a
noise of `-0.05`, violating the claimed bound. -/
theorem claim_C9_counterexample :
    envA.stddev * envA.stddev = variance [1, 1, 1] ∧
    0 ≤ envA.rand 0 ∧ envA.rand 0 < 1 ∧
    ¬ |noiseAt [1, 1, 1] envA 0| ≤ (5 / 100) * ((1 / 10) * mean [1, 1, 1]) := by
  refine ⟨?_, le_refl 0, by norm_num [envA], ?_⟩
  · norm_num [envA, variance, mean]
  · have h : noiseAt [1, 1, 1] envA 0 = -(1 / 20) := by
      norm_num [noiseAt, envA, mean, max_def]
    rw [h, abs_neg, abs_of_nonneg (by norm_num : (0:ℚ) ≤ 1 / 20)]
    norm_num [mean]

/-- C9 (amended): in every branch the additive noise satisfies
`|noise| ≤ 0.05 × M`, where the magnitude base `M` is the standard
deviation when it is non-zero and `max 1 (0.1 × mean)` — not `0.1 × mean` —
when the standard deviation is zero, assuming the random draw lies in
`[0, 1]` and the standard deviation is non-negative. -/
theorem claim_C9 (hd : List ℚ) (env : Env) (i : ℕ)
    (hstd : 0 ≤ env.stddev) (hr0 : 0 ≤ env.rand i) (hr1 : env.rand i ≤ 1) :
    |noiseAt hd env i|
      ≤ (5 / 100) * (if env.stddev = 0 then max 1 (mean hd * (1 / 10)) else env.stddev) := by
  unfold noiseAt
  set M := (if env.stddev = 0 then max 1 (mean hd * (1 / 10)) else env.stddev) with hMdef
  have hM : 0 ≤ M := by
    rw [hMdef]
    split
    · exact le_trans zero_le_one (le_max_left _ _)
    · exact hstd
  rw [abs_mul, abs_of_nonneg hM]
  have hfac : |env.rand i * (1 / 10) - 5 / 100| ≤ 5 / 100 := by
    rw [abs_le]
    constructor <;> linarith
  have h2 : M * |env.rand i * (1 / 10) - 5 / 100| ≤ M * (5 / 100) :=
    mul_le_mul_of_nonneg_left hfac hM
  linarith

theorem claim_C9_witness :
    |noiseAt [1, 1, 1] envA 0|
      ≤ (5 / 100) * (if envA.stddev = 0 then max 1 (mean [1, 1, 1] * (1 / 10)) else envA.stddev) :=
  claim_C9 [1, 1, 1] envA 0 (le_refl 0) (le_refl 0) (by norm_num [envA])

theorem compute_hist_eq (hd : List ℚ) (m : ℕ) (env : Env) :
    (computeClientFallbackForecast hd m env).historical_data = hd.map round2 := rfl

/-- C10: the embedded function is pure, so the historical series argument
itself is never modified (the source reads it only through `reduce`, `map`
and `slice`); the `historical_data` field of the result is a fresh list of
the same length and order whose `i`-th element is the input's `i`-th
element rounded to two decimals, hence within 0.005 of it. -/
theorem claim_C10 (hd : List ℚ) (m : ℕ) (env : Env) (i : ℕ) (hi : i < hd.length) :
    (computeClientFallbackForecast hd m env).historical_data.length = hd.length ∧
    (computeClientFallbackForecast hd m env).historical_data.getD i 0
      = round2 (hd.getD i 0) ∧
    |(computeClientFallbackForecast hd m env).historical_data.getD i 0 - hd.getD i 0|
      ≤ 1 / 200 := by
  rw [compute_hist_eq]
  refine ⟨List.length_map _ _, ?_, ?_⟩
  · exact getD_map_of_lt round2 hd 0 0 hi
  · rw [getD_map_of_lt round2 hd 0 0 hi]
    exact abs_round2_sub _

theorem claim_C10_witness :
    (computeClientFallbackForecast [(10123 : ℚ) / 1000] 1 envA).historical_data.length
      = ([(10123 : ℚ) / 1000] : List ℚ).length ∧
    (computeClientFallbackForecast [(10123 : ℚ) / 1000] 1 envA).historical_data.getD 0 0
      = round2 (([(10123 : ℚ) / 1000] : List ℚ).getD 0 0) ∧
    |(computeClientFallbackForecast [(10123 : ℚ) / 1000] 1 envA).historical_data.getD 0 0
        - ([(10123 : ℚ) / 1000] : List ℚ).getD 0 0| ≤ 1 / 200 :=
  claim_C10 [(10123 : ℚ) / 1000] 1 envA 0 (by decide)

end EnergyDashboard
